import Mathlib

/-!
Shallow embedding of the feedback-exchange service implemented in
Server/app/routers/feedback.py.  The document store is modelled as an
explicit state (`DB`) holding lists of user, feedback, feedback-request and
notification records; each route handler becomes a pure function from the
state and its parameters to `Except ApiError (DB × response)`.  Mongo
object ids are modelled as natural numbers drawn from a fresh-id counter,
and `datetime.utcnow()` is an explicit `now : Nat` parameter.  A query
`find_one` is the first element of the record list satisfying the filter,
and `save` on a fetched document writes it back at its id.
-/

namespace FeedbackApp

/-- A user directory record, as in app.models.user: an identifier, a display
name, and a role string ("manager" or "employee"). -/
structure User where
  employee_id : String
  name : String
  role : String
deriving Repr, DecidableEq

/-- One comment embedded in a feedback document: the commenting employee id
and the comment text. -/
structure Comment where
  employee_id : String
  text : String
deriving Repr, DecidableEq

/-- A feedback document, with the fields written by create_feedback in the
router (id is the Mongo object id, modelled as a Nat). -/
structure Feedback where
  id : Nat
  employee_id : String
  manager_employee_id : String
  strengths : String
  improvement : String
  sentiment : String
  anonymous : Bool
  tags : List String
  acknowledged : Bool
  comments : List Comment
  created_at : Nat
deriving Repr, DecidableEq

/-- A feedback-request document, with the fields written by request_feedback
in the router. -/
structure FeedbackRequest where
  id : Nat
  employee_id : String
  manager_employee_id : String
  message : String
  seen : Bool
  created_at : Nat
deriving Repr, DecidableEq

/-- A notification document.  The router always writes employee_id (the
recipient), manager_employee_id, manager_name and message explicitly; the
seen flag starts false and created_at is the insertion time, per the data
model in the spec (the models module itself is not part of the router
source). -/
structure Notification where
  id : Nat
  employee_id : String
  manager_employee_id : String
  manager_name : String
  message : String
  seen : Bool
  created_at : Nat
deriving Repr, DecidableEq

/-- The document store: one collection per model, plus a fresh-id counter
standing for Mongo object-id generation. -/
structure DB where
  users : List User
  feedbacks : List Feedback
  requests : List FeedbackRequest
  notifications : List Notification
  nextId : Nat
deriving Repr, DecidableEq

/-- Service-level errors: HTTPException(404, msg) and HTTPException(403, msg). -/
inductive ApiError where
  | notFound (msg : String)
  | forbidden (msg : String)
deriving Repr, DecidableEq

/-- Request body of POST / and PUT /feedback_id (schema FeedbackCreate).
tags is optional in the schema; the router normalises a missing value with
`payload.tags or []`. -/
structure FeedbackCreate where
  employee_id : String
  manager_employee_id : String
  strengths : String
  improvement : String
  sentiment : String
  anonymous : Bool
  tags : Option (List String)
deriving Repr, DecidableEq

/-- Request body of POST /request (schema FeedbackRequestIn). -/
structure FeedbackRequestIn where
  employee_id : String
  manager_employee_id : String
  message : String
deriving Repr, DecidableEq

/-- Request body of POST /comment/feedback_id (schema CommentIn). -/
structure CommentIn where
  employee_id : String
  text : String
deriving Repr, DecidableEq

/-- Modelled from the spec: the response schema FeedbackOut (module
app.schemas.feedback, not under the provided source) packages a feedback
record together with the resolved manager display name and, on read paths,
a rendered comment list; per the spec the record itself does not store the
name, so every read path re-joins to the directory to render it. -/
structure FeedbackOut where
  id : Nat
  employee_id : String
  manager_employee_id : String
  strengths : String
  improvement : String
  sentiment : String
  anonymous : Bool
  tags : List String
  acknowledged : Bool
  comments : List Comment
  manager_name : String
deriving Repr, DecidableEq

/-- Modelled from the spec: FeedbackOut.from_feedback(fb, manager_name,
comments) copies the feedback fields, attaches the resolved manager name,
and uses the supplied comment list when one is given (the rendered one on
read paths), the stored list otherwise. -/
def FeedbackOut.from_feedback (fb : Feedback) (name : String)
    (cs : Option (List Comment)) : FeedbackOut :=
  { id := fb.id
    employee_id := fb.employee_id
    manager_employee_id := fb.manager_employee_id
    strengths := fb.strengths
    improvement := fb.improvement
    sentiment := fb.sentiment
    anonymous := fb.anonymous
    tags := fb.tags
    acknowledged := fb.acknowledged
    comments := cs.getD fb.comments
    manager_name := name }

/-- User.find_one(User.employee_id == eid, User.role == role): first user
record matching both filters. -/
def findUserByRole (db : DB) (eid role : String) : Option User :=
  db.users.find? (fun u => u.employee_id == eid && u.role == role)

/-- User.find_one(User.employee_id == eid), with no role filter (used at
lines 169, 194, 279 and 290 of the router). -/
def findUser (db : DB) (eid : String) : Option User :=
  db.users.find? (fun u => u.employee_id == eid)

/-- Feedback.get(feedback_id): fetch a feedback document by id. -/
def getFeedback (db : DB) (fid : Nat) : Option Feedback :=
  db.feedbacks.find? (fun f => f.id == fid)

/-- FeedbackRequest.get(request_id): fetch a feedback request by id. -/
def getRequest (db : DB) (rid : Nat) : Option FeedbackRequest :=
  db.requests.find? (fun r => r.id == rid)

/-- Notification.get(notification_id): fetch a notification by id. -/
def getNotification (db : DB) (nid : Nat) : Option Notification :=
  db.notifications.find? (fun n => n.id == nid)

/-- Write back a feedback document at its id (fb.save()). -/
def saveFeedback (db : DB) (fid : Nat) (fb : Feedback) : DB :=
  { db with feedbacks := db.feedbacks.map (fun f => if f.id == fid then fb else f) }

/-- POST / — create_feedback (router lines 21 to 58): resolve the manager
(role manager) then the employee (role employee), failing 404 with
"Manager not found" or "Employee not found"; insert a Feedback with
acknowledged false and an empty comment list; insert one Notification to
the employee; return the record enriched with the manager name. -/
def create_feedback (db : DB) (payload : FeedbackCreate) (now : Nat) :
    Except ApiError (DB × FeedbackOut) :=
  match findUserByRole db payload.manager_employee_id "manager" with
  | none => .error (.notFound "Manager not found")
  | some mgr =>
    match findUserByRole db payload.employee_id "employee" with
    | none => .error (.notFound "Employee not found")
    | some _ =>
      let fb : Feedback :=
        { id := db.nextId
          employee_id := payload.employee_id
          manager_employee_id := payload.manager_employee_id
          strengths := payload.strengths
          improvement := payload.improvement
          sentiment := payload.sentiment
          anonymous := payload.anonymous
          tags := payload.tags.getD []
          acknowledged := false
          comments := []
          created_at := now }
      let notif : Notification :=
        { id := db.nextId + 1
          employee_id := payload.employee_id
          manager_employee_id := mgr.employee_id
          manager_name := mgr.name
          message := "You have received new feedback from manager " ++ mgr.name
          seen := false
          created_at := now }
      .ok ({ db with
              feedbacks := db.feedbacks ++ [fb]
              notifications := db.notifications ++ [notif]
              nextId := db.nextId + 2 },
           FeedbackOut.from_feedback fb mgr.name none)

/-- POST /request — request_feedback (router lines 64 to 96): resolve the
employee first, then the manager; insert a FeedbackRequest with seen false;
insert one Notification whose employee_id and manager_employee_id fields
are both the manager id. -/
def request_feedback (db : DB) (payload : FeedbackRequestIn) (now : Nat) :
    Except ApiError (DB × String) :=
  match findUserByRole db payload.employee_id "employee" with
  | none => .error (.notFound "Employee not found")
  | some _ =>
    match findUserByRole db payload.manager_employee_id "manager" with
    | none => .error (.notFound "Manager not found")
    | some mgr =>
      let fr : FeedbackRequest :=
        { id := db.nextId
          employee_id := payload.employee_id
          manager_employee_id := payload.manager_employee_id
          message := payload.message
          seen := false
          created_at := now }
      let notif : Notification :=
        { id := db.nextId + 1
          employee_id := payload.manager_employee_id
          manager_employee_id := payload.manager_employee_id
          manager_name := mgr.name
          message := "Feedback request from employee " ++ payload.employee_id
          seen := false
          created_at := now }
      .ok ({ db with
              requests := db.requests ++ [fr]
              notifications := db.notifications ++ [notif]
              nextId := db.nextId + 2 },
           "Feedback request submitted successfully")

/-- PATCH /requests/request_id/seen — mark_feedback_request_seen (router
lines 130 to 138): fetch the request; set seen to True and save. -/
def mark_feedback_request_seen (db : DB) (rid : Nat) :
    Except ApiError (DB × String) :=
  match getRequest db rid with
  | none => .error (.notFound "Feedback request not found")
  | some req =>
    .ok ({ db with
            requests := db.requests.map
              (fun r => if r.id == rid then { req with seen := true } else r) },
         "Feedback request marked as seen")

/-- GET /employee/employee_id — the per-record rendering step of
get_feedback_history: re-resolve the manager with no role filter, render
each comment text through the Markdown transform md, and fall back to the
literal name "Unknown" when the manager id resolves to no user. -/
def renderFeedback (db : DB) (md : String → String) (fb : Feedback) : FeedbackOut :=
  let comments_html := fb.comments.map (fun c => { c with text := md c.text })
  FeedbackOut.from_feedback fb
    (match findUser db fb.manager_employee_id with
     | some m => m.name
     | none => "Unknown")
    (some comments_html)

/-- GET /employee/employee_id — get_feedback_history (router lines 164 to
179): scan feedback by employee id and render each record; the Markdown
renderer md is an external collaborator passed as a function. -/
def get_feedback_history (db : DB) (eid : String) (md : String → String) :
    List FeedbackOut :=
  (db.feedbacks.filter (fun f => f.employee_id == eid)).map (renderFeedback db md)

/-- PATCH /acknowledge/feedback_id — acknowledge (router lines 185 to 203):
fetch the feedback; set acknowledged to True and save; then re-resolve the
stored manager id with no role filter and, only if it resolves, insert a
Notification addressed to the manager. -/
def acknowledge (db : DB) (fid : Nat) (now : Nat) :
    Except ApiError (DB × String) :=
  match getFeedback db fid with
  | none => .error (.notFound "Feedback not found")
  | some fb =>
    let db1 := saveFeedback db fid { fb with acknowledged := true }
    match findUser db fb.manager_employee_id with
    | some mgr =>
      .ok ({ db1 with
              notifications := db1.notifications ++
                [{ id := db1.nextId
                   employee_id := fb.manager_employee_id
                   manager_employee_id := fb.manager_employee_id
                   manager_name := mgr.name
                   message := "Employee " ++ fb.employee_id ++ " acknowledged your feedback."
                   seen := false
                   created_at := now }]
              nextId := db1.nextId + 1 },
           "Feedback acknowledged")
    | none => .ok (db1, "Feedback acknowledged")

/-- PUT /feedback_id — update_feedback (router lines 209 to 229): fetch the
feedback; resolve the supplied manager id with role manager; 403 unless it
resolves and matches the stored owner; replace strengths, improvement,
sentiment, tags and anonymous and save. -/
def update_feedback (db : DB) (fid : Nat) (upd : FeedbackCreate) :
    Except ApiError (DB × FeedbackOut) :=
  match getFeedback db fid with
  | none => .error (.notFound "Feedback not found")
  | some fb =>
    match findUserByRole db upd.manager_employee_id "manager" with
    | none => .error (.forbidden "Not authorized")
    | some mgr =>
      if fb.manager_employee_id ≠ mgr.employee_id then
        .error (.forbidden "Not authorized")
      else
        let fb' : Feedback :=
          { fb with
              strengths := upd.strengths
              improvement := upd.improvement
              sentiment := upd.sentiment
              tags := upd.tags.getD []
              anonymous := upd.anonymous }
        .ok (saveFeedback db fid fb', FeedbackOut.from_feedback fb' mgr.name none)

/-- DELETE /feedback_id — delete_feedback (router lines 235 to 249): fetch
the feedback; 403 unless the stored manager id resolves to a user with role
manager (no caller identity is taken at all); delete the document. -/
def delete_feedback (db : DB) (fid : Nat) :
    Except ApiError (DB × String) :=
  match getFeedback db fid with
  | none => .error (.notFound "Feedback not found")
  | some fb =>
    match findUserByRole db fb.manager_employee_id "manager" with
    | none => .error (.forbidden "Not authorized")
    | some _ =>
      .ok ({ db with feedbacks := db.feedbacks.filter (fun f => !(f.id == fid)) },
           "Deleted")

/-- DELETE /manager/manager_id — delete_all (router lines 255 to 267): 403
unless manager_id resolves to a user with role manager; delete every
feedback with that manager_employee_id and return the count removed. -/
def delete_all (db : DB) (mid : String) :
    Except ApiError (DB × Nat) :=
  match findUserByRole db mid "manager" with
  | none => .error (.forbidden "Not authorized")
  | some _ =>
    .ok ({ db with
            feedbacks := db.feedbacks.filter (fun f => !(f.manager_employee_id == mid)) },
         (db.feedbacks.filter (fun f => f.manager_employee_id == mid)).length)

/-- POST /comment/feedback_id — comment (router lines 273 to 299): fetch the
feedback; resolve the commenter id with no role filter and require role
employee; append the comment to the stored sequence and save; then
re-resolve the stored manager id and, only if it resolves, insert a
Notification addressed to the manager. -/
def comment (db : DB) (fid : Nat) (c : CommentIn) (now : Nat) :
    Except ApiError (DB × String) :=
  match getFeedback db fid with
  | none => .error (.notFound "Feedback not found")
  | some fb =>
    match findUser db c.employee_id with
    | none => .error (.forbidden "Not authorized")
    | some emp =>
      if emp.role ≠ "employee" then
        .error (.forbidden "Not authorized")
      else
        let fb' : Feedback :=
          { fb with comments := fb.comments ++ [{ employee_id := c.employee_id, text := c.text }] }
        let db1 := saveFeedback db fid fb'
        match findUser db fb.manager_employee_id with
        | some mgr =>
          .ok ({ db1 with
                  notifications := db1.notifications ++
                    [{ id := db1.nextId
                       employee_id := fb.manager_employee_id
                       manager_employee_id := fb.manager_employee_id
                       manager_name := mgr.name
                       message := "Employee " ++ c.employee_id ++ " commented on your feedback."
                       seen := false
                       created_at := now }]
                  nextId := db1.nextId + 1 },
               "Comment added")
        | none => .ok (db1, "Comment added")

/-- PATCH /notifications/notification_id — update_notification_seen (router
lines 381 to 388): fetch the notification; set seen to the supplied boolean
(either value) and save. -/
def update_notification_seen (db : DB) (nid : Nat) (seen : Bool) :
    Except ApiError (DB × String) :=
  match getNotification db nid with
  | none => .error (.notFound "Notification not found")
  | some notif =>
    .ok ({ db with
            notifications := db.notifications.map
              (fun n => if n.id == nid then { notif with seen := seen } else n) },
         "Notification updated")

/-- PATCH /notifications/mark-all-seen/employee_id — mark_all_seen (router
lines 391 to 396): bulk set seen true on every notification of the
recipient; no existence check, always succeeds. -/
def mark_all_seen (db : DB) (eid : String) :
    Except ApiError (DB × String) :=
  .ok ({ db with
          notifications := db.notifications.map
            (fun n => if n.employee_id == eid then { n with seen := true } else n) },
       "All notifications marked as seen")

/-- The new state produced by a handler call: the returned state on success,
the unchanged input state on error (an HTTPException aborts the request
before any write that follows it). -/
def runOp {α : Type} (r : Except ApiError (DB × α)) (db : DB) : DB :=
  match r with
  | .ok (db', _) => db'
  | .error _ => db

/-- Whether a handler call succeeded. -/
def isOkE {α : Type} (r : Except ApiError (DB × α)) : Bool :=
  match r with
  | .ok _ => true
  | .error _ => false

/-- The error produced by a handler call, if any. -/
def errOf {α : Type} (r : Except ApiError (DB × α)) : Option ApiError :=
  match r with
  | .ok _ => none
  | .error e => some e

/-- One state-mutating API call, for properties quantified over every
operation of the service. -/
inductive Op where
  | create (p : FeedbackCreate)
  | request (p : FeedbackRequestIn)
  | markRequestSeen (rid : Nat)
  | ack (fid : Nat)
  | update (fid : Nat) (p : FeedbackCreate)
  | deleteOne (fid : Nat)
  | deleteAll (mid : String)
  | addComment (fid : Nat) (c : CommentIn)
  | setNotifSeen (nid : Nat) (b : Bool)
  | markAllSeen (eid : String)

/-- The state after an arbitrary API call (errors leave the state alone). -/
def applyOp (db : DB) (op : Op) (now : Nat) : DB :=
  match op with
  | .create p => runOp (create_feedback db p now) db
  | .request p => runOp (request_feedback db p now) db
  | .markRequestSeen rid => runOp (mark_feedback_request_seen db rid) db
  | .ack fid => runOp (acknowledge db fid now) db
  | .update fid p => runOp (update_feedback db fid p) db
  | .deleteOne fid => runOp (delete_feedback db fid) db
  | .deleteAll mid => runOp (delete_all db mid) db
  | .addComment fid c => runOp (comment db fid c now) db
  | .setNotifSeen nid b => runOp (update_notification_seen db nid b) db
  | .markAllSeen eid => runOp (mark_all_seen db eid) db

/-- The update payload mapped to the create payload with the same actor
pair, for comparing the validation of request_feedback with that of
create_feedback on one employee and manager id pair. -/
def payloadOfRequest (p : FeedbackRequestIn) : FeedbackCreate :=
  { employee_id := p.employee_id
    manager_employee_id := p.manager_employee_id
    strengths := ""
    improvement := ""
    sentiment := ""
    anonymous := false
    tags := none }

/-- Test fixture: a manager account. -/
def uM1 : User := { employee_id := "M1", name := "Alice", role := "manager" }

/-- Test fixture: a second, distinct manager account. -/
def uM2 : User := { employee_id := "M2", name := "Bob", role := "manager" }

/-- Test fixture: an employee account. -/
def uE1 : User := { employee_id := "E1", name := "Carol", role := "employee" }

/-- Test fixture: a second employee account. -/
def uE2 : User := { employee_id := "E2", name := "Dave", role := "employee" }

/-- Test fixture: a feedback record owned by manager M1 about employee E1. -/
def fb1 : Feedback :=
  { id := 0
    employee_id := "E1"
    manager_employee_id := "M1"
    strengths := "good"
    improvement := "less"
    sentiment := "positive"
    anonymous := false
    tags := ["t"]
    acknowledged := false
    comments := []
    created_at := 0 }

/-- Test fixture: a store with two managers, two employees and one feedback
record. -/
def db1 : DB :=
  { users := [uM1, uM2, uE1, uE2]
    feedbacks := [fb1]
    requests := []
    notifications := []
    nextId := 1 }

/-- Test fixture: a feedback record whose stored manager id resolves to no
user at all. -/
def fbDangling : Feedback :=
  { id := 0
    employee_id := "E1"
    manager_employee_id := "MX"
    strengths := "s"
    improvement := "i"
    sentiment := "neutral"
    anonymous := false
    tags := []
    acknowledged := false
    comments := []
    created_at := 0 }

/-- Test fixture: a store holding only a feedback record with a dangling
manager reference (its user directory is empty). -/
def dbDangling : DB :=
  { users := []
    feedbacks := [fbDangling]
    requests := []
    notifications := []
    nextId := 1 }

/-- Test fixture: an empty user directory. -/
def dbEmptyDir : DB :=
  { users := []
    feedbacks := []
    requests := []
    notifications := []
    nextId := 0 }

/-- Test fixture: a feedback request payload naming actors that do not
resolve. -/
def pReqBad : FeedbackRequestIn :=
  { employee_id := "EX", manager_employee_id := "MX", message := "m" }

/-- Test fixture: a valid create payload from manager M1 to employee E1. -/
def pC1 : FeedbackCreate :=
  { employee_id := "E1"
    manager_employee_id := "M1"
    strengths := "s"
    improvement := "i"
    sentiment := "neutral"
    anonymous := false
    tags := none }

/-- Test fixture: an update payload naming manager M2, who is valid but is
not the stored owner of fb1. -/
def updM2 : FeedbackCreate :=
  { employee_id := "E1"
    manager_employee_id := "M2"
    strengths := "x"
    improvement := "y"
    sentiment := "negative"
    anonymous := true
    tags := some ["a"] }

/-- Test fixture: an update payload from the stored owner M1 of fb1. -/
def updM1 : FeedbackCreate :=
  { employee_id := "E1"
    manager_employee_id := "M1"
    strengths := "new strengths"
    improvement := "new improvement"
    sentiment := "negative"
    anonymous := true
    tags := some ["fresh"] }

/-- Test fixture: a store with one notification that is already seen, for
exercising the two-way flag. -/
def dbNotif : DB :=
  { users := [uM1, uE1]
    feedbacks := []
    requests := [{ id := 3, employee_id := "E1", manager_employee_id := "M1",
                   message := "please review", seen := false, created_at := 0 }]
    notifications := [{ id := 7, employee_id := "E1", manager_employee_id := "M1",
                        manager_name := "Alice", message := "hello", seen := true,
                        created_at := 0 }]
    nextId := 8 }

/-- Test fixture: a valid feedback request payload from E1 to M1. -/
def pReq1 : FeedbackRequestIn :=
  { employee_id := "E1", manager_employee_id := "M1", message := "please review" }

/-- Test fixture: a comment payload by employee E1. -/
def cE1 : CommentIn := { employee_id := "E1", text := "first" }

/-- Test fixture: a comment payload by employee E2. -/
def cE2 : CommentIn := { employee_id := "E2", text := "second" }

theorem find?_append_some {α : Type} {p : α → Bool} {l : List α} (l' : List α)
    {a : α} (h : l.find? p = some a) : (l ++ l').find? p = some a := by
  induction l with
  | nil => simp [List.find?] at h
  | cons x xs ih =>
    cases hx : p x
    · simp only [List.cons_append, List.find?_cons, hx] at h ⊢
      exact ih h
    · simp only [List.cons_append, List.find?_cons, hx] at h ⊢
      exact h

theorem find?_map_pres {α : Type} (g : α → α) (p : α → Bool)
    (hp : ∀ x, p (g x) = p x) (l : List α) :
    (l.map g).find? p = (l.find? p).map g := by
  induction l with
  | nil => rfl
  | cons x xs ih =>
    cases hx : p x
    · simp only [List.map_cons, List.find?_cons, hp, hx]
      exact ih
    · simp only [List.map_cons, List.find?_cons, hp, hx]
      rfl

theorem find?_set_at_key {α : Type} (key : α → Nat) {l : List α} {k : Nat} {a : α}
    (b : α) (h : l.find? (fun x => key x == k) = some a) (hid : key b = key a) :
    (l.map (fun x => if key x == k then b else x)).find? (fun x => key x == k) =
      some b := by
  have ha := List.find?_some h
  have hak : key a = k := eq_of_beq ha
  have hp : ∀ x, (key (if key x == k then b else x) == k) = (key x == k) := by
    intro x
    by_cases hx : (key x == k) = true
    · rw [if_pos hx, hid, hak, hx]
      exact beq_self_eq_true k
    · rw [if_neg hx]
  rw [find?_map_pres _ _ hp, h]
  simp only [Option.map_some']
  have ha' : (key a == k) = true := ha
  rw [if_pos ha']

theorem find?_eq_none_of_forall {α : Type} {p : α → Bool} {l : List α}
    (h : ∀ a ∈ l, p a = false) : l.find? p = none := by
  induction l with
  | nil => rfl
  | cons x xs ih =>
    simp only [List.find?_cons, h x (List.mem_cons_self x xs)]
    exact ih (fun a ha => h a (List.mem_cons_of_mem x ha))

theorem find?_key_filter {α : Type} (key : α → Nat) {l : List α} {k : Nat} {a : α}
    (hnd : (l.map key).Nodup)
    (h : l.find? (fun x => key x == k) = some a) (q : α → Bool) :
    (l.filter q).find? (fun x => key x == k) = some a ∨
    (l.filter q).find? (fun x => key x == k) = none := by
  induction l with
  | nil => simp [List.find?] at h
  | cons x xs ih =>
    rw [List.map_cons, List.nodup_cons] at hnd
    cases hx : (key x == k)
    · simp only [List.find?_cons, hx] at h
      have hih := ih hnd.2 h
      by_cases hq : q x = true
      · rw [List.filter_cons_of_pos hq]
        simp only [List.find?_cons, hx]
        exact hih
      · rw [List.filter_cons_of_neg hq]
        exact hih
    · simp only [List.find?_cons, hx] at h
      have hxa : x = a := Option.some.inj h
      have hk : key x = k := eq_of_beq hx
      have hnone : (xs.filter q).find? (fun y => key y == k) = none := by
        apply find?_eq_none_of_forall
        intro y hy
        have hmem : y ∈ xs := List.mem_of_mem_filter hy
        have hne : key y ≠ key x := fun he => hnd.1 (he ▸ List.mem_map_of_mem key hmem)
        rw [hk] at hne
        exact beq_eq_false_iff_ne.mpr hne
      by_cases hq : q x = true
      · left
        rw [List.filter_cons_of_pos hq]
        simp only [List.find?_cons, hx]
        rw [hxa]
      · right
        rw [List.filter_cons_of_neg hq]
        exact hnone

theorem findUserByRole_spec {db : DB} {eid role : String} {u : User}
    (h : findUserByRole db eid role = some u) :
    u.employee_id = eid ∧ u.role = role := by
  have hp := List.find?_some
    (show db.users.find? (fun v => v.employee_id == eid && v.role == role) = some u from h)
  simpa [Bool.and_eq_true, beq_iff_eq] using hp

theorem getFeedback_id {db : DB} {fid : Nat} {fb : Feedback}
    (h : getFeedback db fid = some fb) : fb.id = fid := by
  have hp := List.find?_some
    (show db.feedbacks.find? (fun f => f.id == fid) = some fb from h)
  exact eq_of_beq hp

/-- C1: for every pair resolving through the directory to a manager-role
user and an employee-role user, create_feedback succeeds and appends
exactly one Feedback record with acknowledged false and an empty comment
list, and exactly one Notification whose recipient employee_id equals the
given employee_id and whose message is the templated new-feedback message
naming the manager; if either role-filtered lookup fails it fails NotFound
naming that entity and leaves the store unchanged, creating neither
record. -/
theorem create_feedback_spec (db : DB) (p : FeedbackCreate) (now : Nat) :
    (findUserByRole db p.manager_employee_id "manager" = none →
       create_feedback db p now = .error (.notFound "Manager not found") ∧
       runOp (create_feedback db p now) db = db) ∧
    (∀ mgr, findUserByRole db p.manager_employee_id "manager" = some mgr →
       findUserByRole db p.employee_id "employee" = none →
       create_feedback db p now = .error (.notFound "Employee not found") ∧
       runOp (create_feedback db p now) db = db) ∧
    (∀ mgr emp, findUserByRole db p.manager_employee_id "manager" = some mgr →
       findUserByRole db p.employee_id "employee" = some emp →
       isOkE (create_feedback db p now) = true ∧
       (runOp (create_feedback db p now) db).feedbacks = db.feedbacks ++
         [{ id := db.nextId
            employee_id := p.employee_id
            manager_employee_id := p.manager_employee_id
            strengths := p.strengths
            improvement := p.improvement
            sentiment := p.sentiment
            anonymous := p.anonymous
            tags := p.tags.getD []
            acknowledged := false
            comments := []
            created_at := now }] ∧
       (runOp (create_feedback db p now) db).notifications = db.notifications ++
         [{ id := db.nextId + 1
            employee_id := p.employee_id
            manager_employee_id := mgr.employee_id
            manager_name := mgr.name
            message := "You have received new feedback from manager " ++ mgr.name
            seen := false
            created_at := now }] ∧
       (runOp (create_feedback db p now) db).requests = db.requests) := by
  refine ⟨?_, ?_, ?_⟩
  · intro hm
    simp [create_feedback, hm, runOp]
  · intro mgr hm he
    simp [create_feedback, hm, he, runOp]
  · intro mgr emp hm he
    simp [create_feedback, hm, he, runOp, isOkE]

/-- Witness for C1: the valid pair (E1, M1) in the concrete store db1. -/
theorem create_feedback_spec_witness :
    isOkE (create_feedback db1 pC1 5) = true ∧
    (runOp (create_feedback db1 pC1 5) db1).feedbacks.length = 2 ∧
    (runOp (create_feedback db1 pC1 5) db1).notifications.length = 1 := by
  have h := (create_feedback_spec db1 pC1 5).2.2 uM1 uE1 rfl rfl
  refine ⟨h.1, ?_, ?_⟩
  · rw [h.2.1]
    rfl
  · rw [h.2.2.1]
    rfl

/-- C2: for every existing feedback record, an update naming a manager id
different from the stored owner (whether or not that id resolves to a
valid manager account) fails Forbidden and leaves the store, and hence the
record with all its fields, unchanged. -/
theorem update_feedback_foreign_manager (db : DB) (fid : Nat)
    (upd : FeedbackCreate) (fb : Feedback)
    (hfb : getFeedback db fid = some fb)
    (hne : upd.manager_employee_id ≠ fb.manager_employee_id) :
    update_feedback db fid upd = .error (.forbidden "Not authorized") ∧
    runOp (update_feedback db fid upd) db = db ∧
    getFeedback (runOp (update_feedback db fid upd) db) fid = some fb := by
  have hmain : update_feedback db fid upd = .error (.forbidden "Not authorized") := by
    simp only [update_feedback, hfb]
    cases hm : findUserByRole db upd.manager_employee_id "manager" with
    | none => rfl
    | some mgr =>
      have hid := (findUserByRole_spec hm).1
      have hnem : fb.manager_employee_id ≠ mgr.employee_id := by
        rw [hid]
        exact fun he => hne he.symm
      simp [hnem]
  refine ⟨hmain, ?_, ?_⟩
  · rw [hmain]
    rfl
  · rw [hmain]
    simpa [runOp] using hfb

/-- Witness for C2: feedback fb1 is owned by M1; an update naming the
valid manager M2 is rejected and the record survives unchanged. -/
theorem update_feedback_foreign_manager_witness :
    update_feedback db1 0 updM2 = .error (.forbidden "Not authorized") ∧
    runOp (update_feedback db1 0 updM2) db1 = db1 ∧
    getFeedback (runOp (update_feedback db1 0 updM2) db1) 0 = some fb1 :=
  update_feedback_foreign_manager db1 0 updM2 fb1 rfl (by decide)

theorem acknowledge_ok {db : DB} {fid : Nat} {fb : Feedback} (now : Nat)
    (hfb : getFeedback db fid = some fb) :
    isOkE (acknowledge db fid now) = true ∧
    (runOp (acknowledge db fid now) db).feedbacks =
      db.feedbacks.map
        (fun f => if f.id == fid then { fb with acknowledged := true } else f) ∧
    getFeedback (runOp (acknowledge db fid now) db) fid =
      some { fb with acknowledged := true } ∧
    (runOp (acknowledge db fid now) db).notifications =
      (match findUser db fb.manager_employee_id with
       | some mgr => db.notifications ++
           [{ id := db.nextId
              employee_id := fb.manager_employee_id
              manager_employee_id := fb.manager_employee_id
              manager_name := mgr.name
              message := "Employee " ++ fb.employee_id ++ " acknowledged your feedback."
              seen := false
              created_at := now }]
       | none => db.notifications) := by
  have hfind : db.feedbacks.find? (fun f => f.id == fid) = some fb := hfb
  have hset := find?_set_at_key Feedback.id { fb with acknowledged := true } hfind rfl
  refine ⟨?_, ?_, ?_, ?_⟩
  · cases hm : findUser db fb.manager_employee_id <;>
      simp only [acknowledge, hfb, hm, isOkE]
  · cases hm : findUser db fb.manager_employee_id <;>
      simp only [acknowledge, hfb, hm, runOp, saveFeedback]
  · cases hm : findUser db fb.manager_employee_id <;>
      · simp only [acknowledge, hfb, hfind, hm, runOp, saveFeedback, getFeedback]
        exact hset
  · cases hm : findUser db fb.manager_employee_id <;>
      simp only [acknowledge, hfb, hm, runOp, saveFeedback]

/-- C3 counterexample: in a store whose user directory is empty, the
feedback record with the dangling manager reference is acknowledged
successfully and its flag is set, yet no Notification is created, refuting
the claim that every successful call emits one Notification to the
manager. -/
theorem acknowledge_missing_manager_counterexample :
    isOkE (acknowledge dbDangling 0 5) = true ∧
    (runOp (acknowledge dbDangling 0 5) dbDangling).feedbacks =
      [{ fbDangling with acknowledged := true }] ∧
    (runOp (acknowledge dbDangling 0 5) dbDangling).notifications = [] := by
  refine ⟨rfl, rfl, rfl⟩

/-- C3 (amended): acknowledging an existing feedback always succeeds and
sets acknowledged true; a second call also succeeds and leaves the flag
true; each call, not only the first transition, appends exactly one
Notification to the manager with the acknowledgement message provided the
stored manager id resolves to a user in the directory, and appends none
when it does not; a missing feedback id fails NotFound. -/
theorem acknowledge_spec_amended (db : DB) (fid now : Nat) :
    (getFeedback db fid = none →
       acknowledge db fid now = .error (.notFound "Feedback not found")) ∧
    (∀ fb, getFeedback db fid = some fb →
       isOkE (acknowledge db fid now) = true ∧
       getFeedback (runOp (acknowledge db fid now) db) fid =
         some { fb with acknowledged := true } ∧
       (∀ mgr, findUser db fb.manager_employee_id = some mgr →
          (runOp (acknowledge db fid now) db).notifications =
            db.notifications ++
              [{ id := db.nextId
                 employee_id := fb.manager_employee_id
                 manager_employee_id := fb.manager_employee_id
                 manager_name := mgr.name
                 message := "Employee " ++ fb.employee_id ++ " acknowledged your feedback."
                 seen := false
                 created_at := now }]) ∧
       (findUser db fb.manager_employee_id = none →
          (runOp (acknowledge db fid now) db).notifications = db.notifications) ∧
       (∀ now2,
          isOkE (acknowledge (runOp (acknowledge db fid now) db) fid now2) = true ∧
          getFeedback
            (runOp (acknowledge (runOp (acknowledge db fid now) db) fid now2)
              (runOp (acknowledge db fid now) db)) fid =
            some { fb with acknowledged := true })) := by
  constructor
  · intro h
    simp only [acknowledge, h]
  · intro fb hfb
    have h1 := acknowledge_ok now hfb
    refine ⟨h1.1, h1.2.2.1, ?_, ?_, ?_⟩
    · intro mgr hm
      rw [h1.2.2.2, hm]
    · intro hm
      rw [h1.2.2.2, hm]
    · intro now2
      have h2 := acknowledge_ok now2 h1.2.2.1
      exact ⟨h2.1, h2.2.2.1⟩

/-- Witness for C3 amended: the concrete store db1, whose stored manager M1
resolves, and the dangling store where it does not. -/
theorem acknowledge_spec_amended_witness :
    isOkE (acknowledge db1 0 5) = true ∧
    getFeedback (runOp (acknowledge db1 0 5) db1) 0 =
      some { fb1 with acknowledged := true } ∧
    (runOp (acknowledge db1 0 5) db1).notifications.length = 1 ∧
    isOkE (acknowledge (runOp (acknowledge db1 0 5) db1) 0 6) = true := by
  have h := (acknowledge_spec_amended db1 0 5).2 fb1 rfl
  refine ⟨h.1, h.2.1, ?_, (h.2.2.2.2 6).1⟩
  rw [h.2.2.1 uM1 rfl]
  rfl

/-- C4 counterexample: with an empty user directory both lookups fail for
the pair (EX, MX); create_feedback reports "Manager not found" while
request_feedback reports "Employee not found", so the reported entity is
not the same as submit_feedback for this input. -/
theorem request_feedback_entity_counterexample :
    request_feedback dbEmptyDir pReqBad 0 = .error (.notFound "Employee not found") ∧
    create_feedback dbEmptyDir (payloadOfRequest pReqBad) 0 =
      .error (.notFound "Manager not found") ∧
    errOf (request_feedback dbEmptyDir pReqBad 0) ≠
      errOf (create_feedback dbEmptyDir (payloadOfRequest pReqBad) 0) := by
  refine ⟨rfl, rfl, by decide⟩

/-- C4 (amended): request_feedback succeeds exactly when create_feedback
succeeds for the same actor pair; whenever at least one of the two
role-filtered lookups succeeds the two operations report the same error;
when both fail, create_feedback reports the manager and request_feedback
the employee, because the checks run in opposite order; on success
request_feedback appends a FeedbackRequest with seen false and exactly one
Notification whose employee_id and manager_employee_id fields both equal
the manager id. -/
theorem request_feedback_spec_amended (db : DB) (p : FeedbackRequestIn) (now : Nat) :
    isOkE (request_feedback db p now) =
      isOkE (create_feedback db (payloadOfRequest p) now) ∧
    ((findUserByRole db p.employee_id "employee").isSome ∨
     (findUserByRole db p.manager_employee_id "manager").isSome →
       errOf (request_feedback db p now) =
         errOf (create_feedback db (payloadOfRequest p) now)) ∧
    (findUserByRole db p.employee_id "employee" = none →
     findUserByRole db p.manager_employee_id "manager" = none →
       request_feedback db p now = .error (.notFound "Employee not found") ∧
       create_feedback db (payloadOfRequest p) now =
         .error (.notFound "Manager not found")) ∧
    (∀ emp mgr, findUserByRole db p.employee_id "employee" = some emp →
       findUserByRole db p.manager_employee_id "manager" = some mgr →
       request_feedback db p now =
         .ok ({ db with
                 requests := db.requests ++
                   [{ id := db.nextId
                      employee_id := p.employee_id
                      manager_employee_id := p.manager_employee_id
                      message := p.message
                      seen := false
                      created_at := now }]
                 notifications := db.notifications ++
                   [{ id := db.nextId + 1
                      employee_id := p.manager_employee_id
                      manager_employee_id := p.manager_employee_id
                      manager_name := mgr.name
                      message := "Feedback request from employee " ++ p.employee_id
                      seen := false
                      created_at := now }]
                 nextId := db.nextId + 2 },
              "Feedback request submitted successfully")) := by
  have hpe : (payloadOfRequest p).employee_id = p.employee_id := rfl
  have hpm : (payloadOfRequest p).manager_employee_id = p.manager_employee_id := rfl
  cases he : findUserByRole db p.employee_id "employee" with
  | none =>
    cases hm : findUserByRole db p.manager_employee_id "manager" with
    | none =>
      refine ⟨?_, ?_, ?_, ?_⟩
      · simp only [request_feedback, create_feedback, hpe, hpm, he, hm, isOkE]
      · intro hs
        simp at hs
      · intro _ _
        constructor
        · simp only [request_feedback, he]
        · simp only [create_feedback, hpm, hm]
      · intro emp mgr hemp _
        simp at hemp
    | some mgr =>
      refine ⟨?_, ?_, ?_, ?_⟩
      · simp only [request_feedback, create_feedback, hpe, hpm, he, hm, isOkE]
      · intro _
        simp only [request_feedback, create_feedback, hpe, hpm, he, hm, errOf]
      · intro _ hmn
        simp at hmn
      · intro emp mgr2 hemp _
        simp at hemp
  | some emp =>
    cases hm : findUserByRole db p.manager_employee_id "manager" with
    | none =>
      refine ⟨?_, ?_, ?_, ?_⟩
      · simp only [request_feedback, create_feedback, hpe, hpm, he, hm, isOkE]
      · intro _
        simp only [request_feedback, create_feedback, hpe, hpm, he, hm, errOf]
      · intro hen _
        simp at hen
      · intro emp2 mgr _ hmgr
        simp at hmgr
    | some mgr =>
      refine ⟨?_, ?_, ?_, ?_⟩
      · simp only [request_feedback, create_feedback, hpe, hpm, he, hm, isOkE]
      · intro _
        simp only [request_feedback, create_feedback, hpe, hpm, he, hm, errOf]
      · intro hen _
        simp at hen
      · intro emp2 mgr2 hemp hmgr
        have hmgr2 : mgr = mgr2 := by injection hmgr
        subst hmgr2
        simp only [request_feedback, he, hm]

/-- Witness for C4 amended: the valid pair (E1, M1) in db1, yielding the
request record and the manager-addressed notification. -/
theorem request_feedback_spec_amended_witness :
    isOkE (request_feedback db1 pReq1 9) =
      isOkE (create_feedback db1 (payloadOfRequest pReq1) 9) ∧
    request_feedback db1 pReq1 9 =
      .ok ({ db1 with
              requests := [{ id := 1, employee_id := "E1", manager_employee_id := "M1",
                             message := "please review", seen := false, created_at := 9 }]
              notifications := [{ id := 2, employee_id := "M1", manager_employee_id := "M1",
                                  manager_name := "Alice",
                                  message := "Feedback request from employee E1",
                                  seen := false, created_at := 9 }]
              nextId := 3 },
           "Feedback request submitted successfully") := by
  have h := request_feedback_spec_amended db1 pReq1 9
  refine ⟨h.1, ?_⟩
  rw [h.2.2.2 uE1 uM1 rfl rfl]
  rfl

/-- C5: a successful update by the stored owner replaces strengths,
improvement, sentiment, tags and anonymous wholesale with the supplied
values (a missing tags value is normalised to the empty list, exactly as
at creation), while the acknowledged flag, the comment sequence and every
identity field are kept as they were, and the updated record is what every
subsequent read of that id returns. -/
theorem update_feedback_owner_spec (db : DB) (fid : Nat) (upd : FeedbackCreate)
    (fb : Feedback) (mgr : User)
    (hfb : getFeedback db fid = some fb)
    (hm : findUserByRole db upd.manager_employee_id "manager" = some mgr)
    (hown : fb.manager_employee_id = upd.manager_employee_id) :
    update_feedback db fid upd =
      .ok ({ db with feedbacks := db.feedbacks.map (fun f =>
               if f.id == fid then
                  { fb with
                      strengths := upd.strengths
                      improvement := upd.improvement
                      sentiment := upd.sentiment
                      tags := upd.tags.getD []
                      anonymous := upd.anonymous } else f) },
           FeedbackOut.from_feedback
             { fb with
                 strengths := upd.strengths
                 improvement := upd.improvement
                 sentiment := upd.sentiment
                 tags := upd.tags.getD []
                 anonymous := upd.anonymous } mgr.name none) ∧
    getFeedback (runOp (update_feedback db fid upd) db) fid =
      some { fb with
               strengths := upd.strengths
               improvement := upd.improvement
               sentiment := upd.sentiment
               tags := upd.tags.getD []
               anonymous := upd.anonymous } := by
  have hid := (findUserByRole_spec hm).1
  have hoe : fb.manager_employee_id = mgr.employee_id := by
    rw [hid]
    exact hown
  have hne : ¬ (fb.manager_employee_id ≠ mgr.employee_id) := by simp [hoe]
  have hfind : db.feedbacks.find? (fun f => f.id == fid) = some fb := hfb
  have hmain : update_feedback db fid upd =
      .ok ({ db with feedbacks := db.feedbacks.map (fun f =>
               if f.id == fid then
                  { fb with
                      strengths := upd.strengths
                      improvement := upd.improvement
                      sentiment := upd.sentiment
                      tags := upd.tags.getD []
                      anonymous := upd.anonymous } else f) },
           FeedbackOut.from_feedback
             { fb with
                 strengths := upd.strengths
                 improvement := upd.improvement
                 sentiment := upd.sentiment
                 tags := upd.tags.getD []
                 anonymous := upd.anonymous } mgr.name none) := by
    simp only [update_feedback, hfb, hm]
    rw [if_neg hne]
    rfl
  refine ⟨hmain, ?_⟩
  rw [hmain]
  exact find?_set_at_key Feedback.id _ hfind rfl

/-- Witness for C5: the stored owner M1 updates fb1 in db1; the new values
land and acknowledged and comments survive. -/
theorem update_feedback_owner_spec_witness :
    getFeedback (runOp (update_feedback db1 0 updM1) db1) 0 =
      some { fb1 with
               strengths := "new strengths"
               improvement := "new improvement"
               sentiment := "negative"
               tags := ["fresh"]
               anonymous := true } := by
  have h := update_feedback_owner_spec db1 0 updM1 fb1 uM1 rfl rfl rfl
  exact h.2

/-- C6: delete_feedback takes only the feedback id, no caller identity; it
fails NotFound when the id does not resolve; fails Forbidden exactly when
the stored manager id does not resolve to a manager-role account, leaving
the store unchanged; and whenever the stored manager account exists the
delete succeeds and removes the record, regardless of who calls, since no
caller is supplied to check. -/
theorem delete_feedback_spec (db : DB) (fid : Nat) :
    (getFeedback db fid = none →
       delete_feedback db fid = .error (.notFound "Feedback not found")) ∧
    (∀ fb, getFeedback db fid = some fb →
       (findUserByRole db fb.manager_employee_id "manager" = none →
          delete_feedback db fid = .error (.forbidden "Not authorized") ∧
          runOp (delete_feedback db fid) db = db) ∧
       (∀ mgr, findUserByRole db fb.manager_employee_id "manager" = some mgr →
          delete_feedback db fid =
            .ok ({ db with feedbacks := db.feedbacks.filter (fun f => !(f.id == fid)) },
                 "Deleted") ∧
          getFeedback (runOp (delete_feedback db fid) db) fid = none)) := by
  constructor
  · intro h
    simp only [delete_feedback, h]
  · intro fb hfb
    constructor
    · intro hmn
      constructor <;> simp only [delete_feedback, hfb, hmn, runOp]
    · intro mgr hmg
      have hmain : delete_feedback db fid =
          .ok ({ db with feedbacks := db.feedbacks.filter (fun f => !(f.id == fid)) },
               "Deleted") := by
        simp only [delete_feedback, hfb, hmg]
      refine ⟨hmain, ?_⟩
      rw [hmain]
      apply find?_eq_none_of_forall
      intro y hy
      have hmem := List.of_mem_filter hy
      simpa using hmem

/-- Witness for C6: in db1 the stored manager M1 of fb1 exists, so the
delete succeeds and the record is gone afterwards. -/
theorem delete_feedback_spec_witness :
    delete_feedback db1 0 = .ok ({ db1 with feedbacks := [] }, "Deleted") ∧
    getFeedback (runOp (delete_feedback db1 0) db1) 0 = none := by
  have h := ((delete_feedback_spec db1 0).2 fb1 rfl).2 uM1 rfl
  refine ⟨?_, h.2⟩
  rw [h.1]
  rfl

/-- C7: delete_all fails Forbidden and deletes nothing when manager_id does
not resolve to a manager-role account; otherwise it removes exactly the
feedback records whose manager_employee_id equals manager_id and returns
the number removed; with zero matching records it succeeds with count 0
and the store is unchanged, not an error. -/
theorem delete_all_spec (db : DB) (mid : String) :
    (findUserByRole db mid "manager" = none →
       delete_all db mid = .error (.forbidden "Not authorized") ∧
       runOp (delete_all db mid) db = db) ∧
    (∀ mgr, findUserByRole db mid "manager" = some mgr →
       delete_all db mid =
         .ok ({ db with
                 feedbacks := db.feedbacks.filter (fun f => !(f.manager_employee_id == mid)) },
              (db.feedbacks.filter (fun f => f.manager_employee_id == mid)).length)) ∧
    (∀ mgr, findUserByRole db mid "manager" = some mgr →
       (∀ f ∈ db.feedbacks, f.manager_employee_id ≠ mid) →
       delete_all db mid = .ok (db, 0)) := by
  have hok : ∀ mgr, findUserByRole db mid "manager" = some mgr →
      delete_all db mid =
        .ok ({ db with
                feedbacks := db.feedbacks.filter (fun f => !(f.manager_employee_id == mid)) },
             (db.feedbacks.filter (fun f => f.manager_employee_id == mid)).length) := by
    intro mgr hm
    simp only [delete_all, hm]
  refine ⟨?_, hok, ?_⟩
  · intro hm
    constructor <;> simp only [delete_all, hm, runOp]
  · intro mgr hm hno
    rw [hok mgr hm]
    have h1 : db.feedbacks.filter (fun f => !(f.manager_employee_id == mid)) =
        db.feedbacks := by
      apply List.filter_eq_self.mpr
      intro a ha
      simpa using hno a ha
    have h2 : db.feedbacks.filter (fun f => f.manager_employee_id == mid) =
        ([] : List Feedback) := by
      apply List.filter_eq_nil_iff.mpr
      intro a ha
      simpa using hno a ha
    rw [h1, h2]
    rfl

/-- Witness for C7: manager M2 exists in db1 and owns no feedback, so the
bulk delete returns count 0 and leaves the store unchanged; for M1 it
removes the one matching record. -/
theorem delete_all_spec_witness :
    delete_all db1 "M2" = .ok (db1, 0) ∧
    delete_all db1 "M1" = .ok ({ db1 with feedbacks := [] }, 1) := by
  constructor
  · exact (delete_all_spec db1 "M2").2.2 uM2 rfl (by decide)
  · rw [(delete_all_spec db1 "M1").2.1 uM1 rfl]
    rfl

theorem findUser_congr {db db' : DB} (h : db'.users = db.users) (x : String) :
    findUser db' x = findUser db x := by
  simp [findUser, h]

theorem getFeedback_congr {db db' : DB} (h : db'.feedbacks = db.feedbacks) (fid : Nat) :
    getFeedback db' fid = getFeedback db fid := by
  simp [getFeedback, h]

theorem save_preserves_id {fid0 : Nat} {new : Feedback} (hkey : new.id = fid0) :
    ∀ x : Feedback, (if x.id == fid0 then new else x).id = x.id := by
  intro x
  by_cases hx : (x.id == fid0) = true
  · rw [if_pos hx, hkey]
    exact (eq_of_beq hx).symm
  · rw [if_neg hx]

theorem comment_ok {db : DB} {fid : Nat} {c : CommentIn} {fb : Feedback}
    {emp : User} (now : Nat)
    (hfb : getFeedback db fid = some fb)
    (hemp : findUser db c.employee_id = some emp)
    (hrole : emp.role = "employee") :
    isOkE (comment db fid c now) = true ∧
    (runOp (comment db fid c now) db).feedbacks =
      db.feedbacks.map (fun f => if f.id == fid then
        { fb with comments := fb.comments ++
            [{ employee_id := c.employee_id, text := c.text }] } else f) ∧
    getFeedback (runOp (comment db fid c now) db) fid =
      some { fb with comments := fb.comments ++
               [{ employee_id := c.employee_id, text := c.text }] } ∧
    (runOp (comment db fid c now) db).users = db.users := by
  have hfind : db.feedbacks.find? (fun f => f.id == fid) = some fb := hfb
  have hset := find?_set_at_key Feedback.id
    { fb with comments := fb.comments ++
        [{ employee_id := c.employee_id, text := c.text }] } hfind rfl
  have hnr : ¬ (emp.role ≠ "employee") := by simp [hrole]
  cases hm : findUser db fb.manager_employee_id with
  | none =>
    have heq : comment db fid c now =
        .ok (saveFeedback db fid
          { fb with comments := fb.comments ++
              [{ employee_id := c.employee_id, text := c.text }] }, "Comment added") := by
      simp only [comment, hfb, hemp, hm]
      rw [if_neg hnr]
    refine ⟨?_, ?_, ?_, ?_⟩
    · rw [heq]
      rfl
    · rw [heq]
      rfl
    · rw [heq]
      exact hset
    · rw [heq]
      rfl
  | some mgr =>
    have heq : comment db fid c now =
        .ok ({ saveFeedback db fid
                { fb with comments := fb.comments ++
                    [{ employee_id := c.employee_id, text := c.text }] } with
                notifications := db.notifications ++
                  [{ id := db.nextId
                     employee_id := fb.manager_employee_id
                     manager_employee_id := fb.manager_employee_id
                     manager_name := mgr.name
                     message := "Employee " ++ c.employee_id ++ " commented on your feedback."
                     seen := false
                     created_at := now }]
                nextId := db.nextId + 1 }, "Comment added") := by
      simp only [comment, hfb, hemp, hm]
      rw [if_neg hnr]
      rfl
    refine ⟨?_, ?_, ?_, ?_⟩
    · rw [heq]
      rfl
    · rw [heq]
      rfl
    · rw [heq]
      exact hset
    · rw [heq]
      rfl

theorem comments_monotone {db : DB} {fid : Nat} (op : Op) (now : Nat)
    {fb fb' : Feedback}
    (hnd : (db.feedbacks.map Feedback.id).Nodup)
    (h : getFeedback db fid = some fb)
    (h' : getFeedback (applyOp db op now) fid = some fb') :
    fb.comments <+: fb'.comments := by
  have hfind : db.feedbacks.find? (fun f => f.id == fid) = some fb := h
  have hrefl : fb.comments <+: fb.comments := ⟨[], List.append_nil _⟩
  cases op with
  | create p =>
    cases hm : findUserByRole db p.manager_employee_id "manager" with
    | none =>
      have hfeq : (applyOp db (Op.create p) now).feedbacks = db.feedbacks := by
        simp only [applyOp, create_feedback, hm, runOp]
      rw [getFeedback_congr hfeq, h] at h'
      obtain rfl : fb = fb' := by injection h'
      exact hrefl
    | some mgr =>
      cases he : findUserByRole db p.employee_id "employee" with
      | none =>
        have hfeq : (applyOp db (Op.create p) now).feedbacks = db.feedbacks := by
          simp only [applyOp, create_feedback, hm, he, runOp]
        rw [getFeedback_congr hfeq, h] at h'
        obtain rfl : fb = fb' := by injection h'
        exact hrefl
      | some emp =>
        have hfeq : (applyOp db (Op.create p) now).feedbacks =
            db.feedbacks ++
              [{ id := db.nextId
                 employee_id := p.employee_id
                 manager_employee_id := p.manager_employee_id
                 strengths := p.strengths
                 improvement := p.improvement
                 sentiment := p.sentiment
                 anonymous := p.anonymous
                 tags := p.tags.getD []
                 acknowledged := false
                 comments := []
                 created_at := now }] := by
          simp only [applyOp, create_feedback, hm, he, runOp]
        simp only [getFeedback] at h'
        rw [hfeq, find?_append_some _ hfind] at h'
        obtain rfl : fb = fb' := by injection h'
        exact hrefl
  | request p =>
    cases he : findUserByRole db p.employee_id "employee" with
    | none =>
      have hfeq : (applyOp db (Op.request p) now).feedbacks = db.feedbacks := by
        simp only [applyOp, request_feedback, he, runOp]
      rw [getFeedback_congr hfeq, h] at h'
      obtain rfl : fb = fb' := by injection h'
      exact hrefl
    | some emp =>
      cases hm : findUserByRole db p.manager_employee_id "manager" with
      | none =>
        have hfeq : (applyOp db (Op.request p) now).feedbacks = db.feedbacks := by
          simp only [applyOp, request_feedback, he, hm, runOp]
        rw [getFeedback_congr hfeq, h] at h'
        obtain rfl : fb = fb' := by injection h'
        exact hrefl
      | some mgr =>
        have hfeq : (applyOp db (Op.request p) now).feedbacks = db.feedbacks := by
          simp only [applyOp, request_feedback, he, hm, runOp]
        rw [getFeedback_congr hfeq, h] at h'
        obtain rfl : fb = fb' := by injection h'
        exact hrefl
  | markRequestSeen rid =>
    cases hr : getRequest db rid with
    | none =>
      have hfeq : (applyOp db (Op.markRequestSeen rid) now).feedbacks = db.feedbacks := by
        simp only [applyOp, mark_feedback_request_seen, hr, runOp]
      rw [getFeedback_congr hfeq, h] at h'
      obtain rfl : fb = fb' := by injection h'
      exact hrefl
    | some req =>
      have hfeq : (applyOp db (Op.markRequestSeen rid) now).feedbacks = db.feedbacks := by
        simp only [applyOp, mark_feedback_request_seen, hr, runOp]
      rw [getFeedback_congr hfeq, h] at h'
      obtain rfl : fb = fb' := by injection h'
      exact hrefl
  | ack fid0 =>
    cases hf0 : getFeedback db fid0 with
    | none =>
      have hfeq : (applyOp db (Op.ack fid0) now).feedbacks = db.feedbacks := by
        simp only [applyOp, acknowledge, hf0, runOp]
      rw [getFeedback_congr hfeq, h] at h'
      obtain rfl : fb = fb' := by injection h'
      exact hrefl
    | some fb0 =>
      have hkey0 : fb0.id = fid0 := getFeedback_id hf0
      have hkey : ({ fb0 with acknowledged := true } : Feedback).id = fid0 := hkey0
      have hfeq : (applyOp db (Op.ack fid0) now).feedbacks =
          db.feedbacks.map
            (fun f => if f.id == fid0 then { fb0 with acknowledged := true } else f) := by
        cases hm : findUser db fb0.manager_employee_id <;>
          simp only [applyOp, acknowledge, hf0, hm, runOp, saveFeedback]
      simp only [getFeedback] at h'
      rw [hfeq, find?_map_pres _ _ (fun x => by rw [save_preserves_id hkey x]) _,
          hfind] at h'
      simp only [Option.map_some'] at h'
      by_cases hbb : (fb.id == fid0) = true
      · rw [if_pos hbb] at h'
        have hff : fid = fid0 := by
          rw [← getFeedback_id h]
          exact eq_of_beq hbb
        subst hff
        rw [hf0] at h
        have hfb0 : fb0 = fb := by injection h
        have hfb' : ({ fb0 with acknowledged := true } : Feedback) = fb' := by
          injection h'
        rw [← hfb', hfb0]
      · rw [if_neg hbb] at h'
        obtain rfl : fb = fb' := by injection h'
        exact hrefl
  | update fid0 p =>
    cases hf0 : getFeedback db fid0 with
    | none =>
      have hfeq : (applyOp db (Op.update fid0 p) now).feedbacks = db.feedbacks := by
        simp only [applyOp, update_feedback, hf0, runOp]
      rw [getFeedback_congr hfeq, h] at h'
      obtain rfl : fb = fb' := by injection h'
      exact hrefl
    | some fb0 =>
      cases hm : findUserByRole db p.manager_employee_id "manager" with
      | none =>
        have hfeq : (applyOp db (Op.update fid0 p) now).feedbacks = db.feedbacks := by
          simp only [applyOp, update_feedback, hf0, hm, runOp]
        rw [getFeedback_congr hfeq, h] at h'
        obtain rfl : fb = fb' := by injection h'
        exact hrefl
      | some mgr =>
        by_cases hown : fb0.manager_employee_id ≠ mgr.employee_id
        · have hfeq : (applyOp db (Op.update fid0 p) now).feedbacks = db.feedbacks := by
            simp only [applyOp, update_feedback, hf0, hm, runOp]
            rw [if_pos hown]
          rw [getFeedback_congr hfeq, h] at h'
          obtain rfl : fb = fb' := by injection h'
          exact hrefl
        · have hkey0 : fb0.id = fid0 := getFeedback_id hf0
          have hkey : ({ fb0 with
              strengths := p.strengths
              improvement := p.improvement
              sentiment := p.sentiment
              tags := p.tags.getD []
              anonymous := p.anonymous } : Feedback).id = fid0 := hkey0
          have hfeq : (applyOp db (Op.update fid0 p) now).feedbacks =
              db.feedbacks.map
                (fun f => if f.id == fid0 then
                   { fb0 with
                       strengths := p.strengths
                       improvement := p.improvement
                       sentiment := p.sentiment
                       tags := p.tags.getD []
                       anonymous := p.anonymous } else f) := by
            simp only [applyOp, update_feedback, hf0, hm, runOp]
            rw [if_neg hown]
            rfl
          simp only [getFeedback] at h'
          rw [hfeq, find?_map_pres _ _ (fun x => by rw [save_preserves_id hkey x]) _,
              hfind] at h'
          simp only [Option.map_some'] at h'
          by_cases hbb : (fb.id == fid0) = true
          · rw [if_pos hbb] at h'
            have hff : fid = fid0 := by
              rw [← getFeedback_id h]
              exact eq_of_beq hbb
            subst hff
            rw [hf0] at h
            have hfb0 : fb0 = fb := by injection h
            have hfb' :
                ({ fb0 with
                    strengths := p.strengths
                    improvement := p.improvement
                    sentiment := p.sentiment
                    tags := p.tags.getD []
                    anonymous := p.anonymous } : Feedback) = fb' := by injection h'
            rw [← hfb', hfb0]
          · rw [if_neg hbb] at h'
            obtain rfl : fb = fb' := by injection h'
            exact hrefl
  | deleteOne fid0 =>
    cases hf0 : getFeedback db fid0 with
    | none =>
      have hfeq : (applyOp db (Op.deleteOne fid0) now).feedbacks = db.feedbacks := by
        simp only [applyOp, delete_feedback, hf0, runOp]
      rw [getFeedback_congr hfeq, h] at h'
      obtain rfl : fb = fb' := by injection h'
      exact hrefl
    | some fb0 =>
      cases hm : findUserByRole db fb0.manager_employee_id "manager" with
      | none =>
        have hfeq : (applyOp db (Op.deleteOne fid0) now).feedbacks = db.feedbacks := by
          simp only [applyOp, delete_feedback, hf0, hm, runOp]
        rw [getFeedback_congr hfeq, h] at h'
        obtain rfl : fb = fb' := by injection h'
        exact hrefl
      | some mgr =>
        have hfeq : (applyOp db (Op.deleteOne fid0) now).feedbacks =
            db.feedbacks.filter (fun f => !(f.id == fid0)) := by
          simp only [applyOp, delete_feedback, hf0, hm, runOp]
        simp only [getFeedback] at h'
        rw [hfeq] at h'
        rcases find?_key_filter Feedback.id hnd hfind (fun f => !(f.id == fid0)) with
          hc | hc
        · rw [hc] at h'
          obtain rfl : fb = fb' := by injection h'
          exact hrefl
        · rw [hc] at h'
          exact absurd h' (by simp)
  | deleteAll mid =>
    cases hm : findUserByRole db mid "manager" with
    | none =>
      have hfeq : (applyOp db (Op.deleteAll mid) now).feedbacks = db.feedbacks := by
        simp only [applyOp, delete_all, hm, runOp]
      rw [getFeedback_congr hfeq, h] at h'
      obtain rfl : fb = fb' := by injection h'
      exact hrefl
    | some mgr =>
      have hfeq : (applyOp db (Op.deleteAll mid) now).feedbacks =
          db.feedbacks.filter (fun f => !(f.manager_employee_id == mid)) := by
        simp only [applyOp, delete_all, hm, runOp]
      simp only [getFeedback] at h'
      rw [hfeq] at h'
      rcases find?_key_filter Feedback.id hnd hfind
          (fun f => !(f.manager_employee_id == mid)) with hc | hc
      · rw [hc] at h'
        obtain rfl : fb = fb' := by injection h'
        exact hrefl
      · rw [hc] at h'
        exact absurd h' (by simp)
  | addComment fid0 c =>
    cases hf0 : getFeedback db fid0 with
    | none =>
      have hfeq : (applyOp db (Op.addComment fid0 c) now).feedbacks = db.feedbacks := by
        simp only [applyOp, comment, hf0, runOp]
      rw [getFeedback_congr hfeq, h] at h'
      obtain rfl : fb = fb' := by injection h'
      exact hrefl
    | some fb0 =>
      cases hemp : findUser db c.employee_id with
      | none =>
        have hfeq : (applyOp db (Op.addComment fid0 c) now).feedbacks = db.feedbacks := by
          simp only [applyOp, comment, hf0, hemp, runOp]
        rw [getFeedback_congr hfeq, h] at h'
        obtain rfl : fb = fb' := by injection h'
        exact hrefl
      | some emp =>
        by_cases hrole : emp.role = "employee"
        · have hok := comment_ok now hf0 hemp hrole
          have hfeq : (applyOp db (Op.addComment fid0 c) now).feedbacks =
              db.feedbacks.map (fun f => if f.id == fid0 then
                { fb0 with comments := fb0.comments ++
                    [{ employee_id := c.employee_id, text := c.text }] } else f) :=
            hok.2.1
          have hkey0 : fb0.id = fid0 := getFeedback_id hf0
          have hkey : ({ fb0 with comments := fb0.comments ++
              [{ employee_id := c.employee_id, text := c.text }] } : Feedback).id = fid0 :=
            hkey0
          simp only [getFeedback] at h'
          rw [show (applyOp db (Op.addComment fid0 c) now).feedbacks =
                (runOp (comment db fid0 c now) db).feedbacks from rfl] at h'
          rw [hok.2.1, find?_map_pres _ _ (fun x => by rw [save_preserves_id hkey x]) _,
              hfind] at h'
          simp only [Option.map_some'] at h'
          by_cases hbb : (fb.id == fid0) = true
          · rw [if_pos hbb] at h'
            have hff : fid = fid0 := by
              rw [← getFeedback_id h]
              exact eq_of_beq hbb
            subst hff
            rw [hf0] at h
            have hfb0 : fb0 = fb := by injection h
            have hfb' :
                ({ fb0 with comments := fb0.comments ++
                    [{ employee_id := c.employee_id, text := c.text }] } : Feedback) = fb' := by
              injection h'
            rw [← hfb', hfb0]
            exact ⟨[{ employee_id := c.employee_id, text := c.text }], rfl⟩
          · rw [if_neg hbb] at h'
            obtain rfl : fb = fb' := by injection h'
            exact hrefl
        · have hfeq : (applyOp db (Op.addComment fid0 c) now).feedbacks = db.feedbacks := by
            simp only [applyOp, comment, hf0, hemp, runOp]
            rw [if_pos hrole]
          rw [getFeedback_congr hfeq, h] at h'
          obtain rfl : fb = fb' := by injection h'
          exact hrefl
  | setNotifSeen nid b =>
    cases hn : getNotification db nid with
    | none =>
      have hfeq : (applyOp db (Op.setNotifSeen nid b) now).feedbacks = db.feedbacks := by
        simp only [applyOp, update_notification_seen, hn, runOp]
      rw [getFeedback_congr hfeq, h] at h'
      obtain rfl : fb = fb' := by injection h'
      exact hrefl
    | some n =>
      have hfeq : (applyOp db (Op.setNotifSeen nid b) now).feedbacks = db.feedbacks := by
        simp only [applyOp, update_notification_seen, hn, runOp]
      rw [getFeedback_congr hfeq, h] at h'
      obtain rfl : fb = fb' := by injection h'
      exact hrefl
  | markAllSeen eid =>
    have hfeq : (applyOp db (Op.markAllSeen eid) now).feedbacks = db.feedbacks := by
      simp only [applyOp, mark_all_seen, runOp]
    rw [getFeedback_congr hfeq, h] at h'
    obtain rfl : fb = fb' := by injection h'
    exact hrefl

/-- C8: appending a comment by a commenter whose directory lookup yields an
employee-role account appends exactly the pair of commenter id and text at
the end of the stored sequence, leaving every prior comment in place;
appending two comments yields exactly those two, in order, on every
subsequent read; and, under the document-store invariant that record ids
are unique, no operation of the whole API ever edits or removes a stored
comment: after any call the comment sequence of a record that survives
under its id extends its previous value as a prefix. -/
theorem comment_append_spec (db : DB) (fid : Nat) (c : CommentIn) (now : Nat) :
    (∀ fb emp, getFeedback db fid = some fb →
       findUser db c.employee_id = some emp → emp.role = "employee" →
       isOkE (comment db fid c now) = true ∧
       getFeedback (runOp (comment db fid c now) db) fid =
         some { fb with comments := fb.comments ++
                  [{ employee_id := c.employee_id, text := c.text }] }) ∧
    (∀ c2 now2 fb emp emp2, getFeedback db fid = some fb →
       findUser db c.employee_id = some emp → emp.role = "employee" →
       findUser db c2.employee_id = some emp2 → emp2.role = "employee" →
       getFeedback
           (applyOp (applyOp db (Op.addComment fid c) now) (Op.addComment fid c2) now2)
           fid =
         some { fb with comments := fb.comments ++
                  [{ employee_id := c.employee_id, text := c.text },
                   { employee_id := c2.employee_id, text := c2.text }] }) ∧
    (∀ op now2 fb fb', (db.feedbacks.map Feedback.id).Nodup →
       getFeedback db fid = some fb →
       getFeedback (applyOp db op now2) fid = some fb' →
       fb.comments <+: fb'.comments) := by
  refine ⟨?_, ?_, ?_⟩
  · intro fb emp hfb hemp hrole
    have h1 := comment_ok now hfb hemp hrole
    exact ⟨h1.1, h1.2.2.1⟩
  · intro c2 now2 fb emp emp2 hfb hemp hrole hemp2 hrole2
    have h1 := comment_ok now hfb hemp hrole
    have e1 : applyOp db (Op.addComment fid c) now = runOp (comment db fid c now) db := rfl
    rw [e1]
    have hemp2' : findUser (runOp (comment db fid c now) db) c2.employee_id = some emp2 := by
      rw [findUser_congr h1.2.2.2]
      exact hemp2
    have h2 := comment_ok now2 h1.2.2.1 hemp2' hrole2
    have e2 : applyOp (runOp (comment db fid c now) db) (Op.addComment fid c2) now2 =
        runOp (comment (runOp (comment db fid c now) db) fid c2 now2)
          (runOp (comment db fid c now) db) := rfl
    rw [e2, h2.2.2.1]
    simp [List.append_assoc]
  · intro op now2 fb fb' hnd hfb hfb'
    exact comments_monotone op now2 hnd hfb hfb'

/-- Witness for C8: employee E1 then employee E2 comment on fb1 in db1; the
stored sequence is exactly those two comments in order, and the
monotonicity part holds at a concrete operation of the API. -/
theorem comment_append_spec_witness :
    isOkE (comment db1 0 cE1 5) = true ∧
    getFeedback
        (applyOp (applyOp db1 (Op.addComment 0 cE1) 5) (Op.addComment 0 cE2) 6) 0 =
      some { fb1 with comments :=
               [{ employee_id := "E1", text := "first" },
                { employee_id := "E2", text := "second" }] } ∧
    fb1.comments <+: fb1.comments := by
  have h := comment_append_spec db1 0 cE1 5
  refine ⟨(h.1 fb1 uE1 rfl rfl rfl).1, ?_, ?_⟩
  · exact h.2.1 cE2 6 fb1 uE1 uE2 rfl rfl rfl rfl rfl
  · exact h.2.2 (Op.markAllSeen "E1") 7 fb1 fb1 (by decide) rfl rfl

/-- C9: update_notification_seen fails NotFound when the notification id
does not resolve and otherwise writes exactly the supplied boolean to the
seen flag, in either direction, so an already-seen notification can be
unmarked back to false; by contrast a successful mark_feedback_request_seen
always writes true to the request's flag, whatever boolean was stored. -/
theorem notification_seen_spec (db : DB) (nid : Nat) (b : Bool) :
    (getNotification db nid = none →
       update_notification_seen db nid b =
         .error (.notFound "Notification not found")) ∧
    (∀ n, getNotification db nid = some n →
       update_notification_seen db nid b =
         .ok ({ db with notifications := db.notifications.map (fun x =>
                  if x.id == nid then { n with seen := b } else x) },
              "Notification updated") ∧
       getNotification (runOp (update_notification_seen db nid b) db) nid =
         some { n with seen := b }) ∧
    (∀ rid r, getRequest db rid = some r →
       mark_feedback_request_seen db rid =
         .ok ({ db with requests := db.requests.map (fun x =>
                  if x.id == rid then { r with seen := true } else x) },
              "Feedback request marked as seen") ∧
       getRequest (runOp (mark_feedback_request_seen db rid) db) rid =
         some { r with seen := true }) := by
  refine ⟨?_, ?_, ?_⟩
  · intro h
    simp only [update_notification_seen, h]
  · intro n hn
    have hfind : db.notifications.find? (fun x => x.id == nid) = some n := hn
    have hmain : update_notification_seen db nid b =
        .ok ({ db with notifications := db.notifications.map (fun x =>
                 if x.id == nid then { n with seen := b } else x) },
             "Notification updated") := by
      simp only [update_notification_seen, hn]
    refine ⟨hmain, ?_⟩
    rw [hmain]
    exact find?_set_at_key Notification.id _ hfind rfl
  · intro rid r hr
    have hfind : db.requests.find? (fun x => x.id == rid) = some r := hr
    have hmain : mark_feedback_request_seen db rid =
        .ok ({ db with requests := db.requests.map (fun x =>
                 if x.id == rid then { r with seen := true } else x) },
             "Feedback request marked as seen") := by
      simp only [mark_feedback_request_seen, hr]
    refine ⟨hmain, ?_⟩
    rw [hmain]
    exact find?_set_at_key FeedbackRequest.id _ hfind rfl

/-- Witness for C9: notification 7 in dbNotif is stored seen; setting false
unmarks it, setting true re-marks it, and marking request 3 seen writes
true. -/
theorem notification_seen_spec_witness :
    getNotification (runOp (update_notification_seen dbNotif 7 false) dbNotif) 7 =
      some { id := 7, employee_id := "E1", manager_employee_id := "M1",
             manager_name := "Alice", message := "hello", seen := false,
             created_at := 0 } ∧
    getNotification (runOp (update_notification_seen dbNotif 7 true) dbNotif) 7 =
      some { id := 7, employee_id := "E1", manager_employee_id := "M1",
             manager_name := "Alice", message := "hello", seen := true,
             created_at := 0 } ∧
    getRequest (runOp (mark_feedback_request_seen dbNotif 3) dbNotif) 3 =
      some { id := 3, employee_id := "E1", manager_employee_id := "M1",
             message := "please review", seen := true, created_at := 0 } := by
  refine ⟨((notification_seen_spec dbNotif 7 false).2.1 _ rfl).2,
          ((notification_seen_spec dbNotif 7 true).2.1 _ rfl).2,
          ((notification_seen_spec dbNotif 7 true).2.2 3 _ rfl).2⟩

/-- C10: reading an employee's feedback history is a total function that
renders every stored record for that employee; a record whose stored
manager id resolves to no user at read time is still returned, rendered
with the literal manager name Unknown instead of the operation raising an
error. -/
theorem feedback_history_unknown_manager (db : DB) (eid : String)
    (md : String → String) :
    get_feedback_history db eid md =
      (db.feedbacks.filter (fun f => f.employee_id == eid)).map
        (renderFeedback db md) ∧
    (∀ fb, fb ∈ db.feedbacks → fb.employee_id = eid →
       renderFeedback db md fb ∈ get_feedback_history db eid md) ∧
    (∀ fb : Feedback, findUser db fb.manager_employee_id = none →
       (renderFeedback db md fb).manager_name = "Unknown") := by
  refine ⟨rfl, ?_, ?_⟩
  · intro fb hmem heid
    simp only [get_feedback_history]
    exact List.mem_map_of_mem _ (List.mem_filter.mpr ⟨hmem, by simp [heid]⟩)
  · intro fb hm
    simp only [renderFeedback, hm, FeedbackOut.from_feedback]

/-- Witness for C10: the record with the dangling manager reference is
rendered with manager name Unknown and still appears in the history. -/
theorem feedback_history_unknown_manager_witness :
    (renderFeedback dbDangling (fun s => s) fbDangling).manager_name = "Unknown" ∧
    renderFeedback dbDangling (fun s => s) fbDangling ∈
      get_feedback_history dbDangling "E1" (fun s => s) := by
  have h := feedback_history_unknown_manager dbDangling "E1" (fun s => s)
  exact ⟨h.2.2 fbDangling rfl, h.2.1 fbDangling (by decide) rfl⟩

end FeedbackApp
